import Mathlib

/-!
Shallow embedding of the rotation-synchronized POV streaming pipeline of
`Skyecodev1.py` (the only source file of the repository), together with
theorems settling the specification claims about it.

Modelling conventions:
* Python machine state relevant to the claims is the triple of module-level
  globals `video_capture_running`, `motor_running`, `current_rotation`
  (lines 55-57), gathered in `ProcState`.
* Each thread loop (`capture_and_process_video`, `motor_sync`) is embedded as
  a recursion over the finite list of loop iterations it executes before the
  run flag is observed false (list exhaustion models the flag being cleared
  externally); an uncaught Python exception terminates the recursion and is
  recorded, matching a thread dying.
* Fallible Python operations are given their outcome as an explicit argument
  (e.g. whether `sock.connect` / `sock.send` raises), since the outcome is
  decided by the external device; the embedding then follows the source's
  control flow on that outcome.
-/

namespace Skye

/-- Display angular resolution, `TOTAL_ROTATIONS = 10` (line 58). -/
def TOTAL_ROTATIONS : Nat := 10

/-- Python exceptions that the embedded fragments can raise or catch. -/
inductive PyError where
  | nameError (name : String)
  | bluetoothError
  | otherException
  | screenGrabError
deriving Repr, DecidableEq

/-- Names bound at module level in `Skyecodev1.py`: imports (lines 1-17),
configuration constants (lines 20-42), module objects (lines 45-52), the
global flags and counters (lines 55-58), and every `def` in the file.
Python resolves a bare name inside a function against exactly this set
(plus builtins); `get_frame_slice` is not in it and is not a builtin. -/
def definedGlobals : List String :=
  ["asyncio", "json", "np", "sd", "PixelStrip", "Color", "os", "requests",
   "time", "Picamera2", "cv2", "sr", "logging", "webbrowser", "bluetooth",
   "threading", "GPIO", "mss",
   "TAVUS_API_KEY", "TAVUS_API_URL", "REPLICA_ID", "PERSONA_ID",
   "WAKE_WORD", "FACETIME_TRIGGER", "EXIT_PHRASE", "BLUETOOTH_ADDRESS",
   "HALL_SENSOR_PIN", "LED_COUNT", "LED_PIN", "LED_FREQ_HZ", "LED_DMA",
   "LED_BRIGHTNESS", "LED_INVERT", "LED_CHANNEL",
   "logger", "camera", "recognizer",
   "video_capture_running", "motor_running", "current_rotation",
   "TOTAL_ROTATIONS",
   "recognize_speech", "listen_for_phrase", "create_tavus_conversation",
   "tavus_cvi_meeting", "capture_browser_window", "capture_and_process_video",
   "process_frame_for_pov", "motor_sync", "send_next_frame_slice",
   "send_to_seeed_bluetooth", "cleanup", "main"]

/-- Whether the name `get_frame_slice`, referenced at line 181, is defined
anywhere in the module. It is not: the call site raises `NameError`. -/
def get_frame_slice_defined : Bool := definedGlobals.contains "get_frame_slice"

/-- Embedding of `send_next_frame_slice` (lines 179-182). Its body evaluates
`get_frame_slice(current_rotation)`; name resolution fails (the function is
defined nowhere in the module), so the call raises `NameError` before the
`send_to_seeed_bluetooth` call on line 182 is ever reached. The `ok` branch
is unreachable: it would require `get_frame_slice` to exist, and the module
contains no body for it to embed. -/
def send_next_frame_slice : Except PyError Unit :=
  if get_frame_slice_defined then Except.ok ()
  else Except.error (PyError.nameError "get_frame_slice")

/-- The index update performed on an accepted tick (line 175):
`current_rotation = (current_rotation + 1) % TOTAL_ROTATIONS`. -/
def motorTick (r : Nat) : Nat := (r + 1) % TOTAL_ROTATIONS

/-- The module-level globals `video_capture_running`, `motor_running`,
`current_rotation` (lines 55-57). -/
structure ProcState where
  video_capture_running : Bool
  motor_running : Bool
  current_rotation : Nat
deriving Repr, DecidableEq

/-- State at module load (lines 55-57): both flags false, rotation 0. -/
def initialState : ProcState :=
  { video_capture_running := false, motor_running := false,
    current_rotation := 0 }

/-- Observable outcome of one run of the `motor_sync` thread: final global
state, number of accepted ticks (HIGH polls that executed line 175), number
of completed `send` dispatches, and the uncaught exception that killed the
thread, if any. -/
structure MotorRun where
  final : ProcState
  ticks : Nat
  sends : Nat
  uncaught : Option PyError
deriving Repr, DecidableEq

/-- Embedding of the `motor_sync` loop body (lines 167-177), parameterized by
the result of the dispatch call on line 176 so that the loop structure can be
analyzed separately from the fate of that call. Each list element is one poll
of the hall sensor (`GPIO.input(HALL_SENSOR_PIN) == GPIO.HIGH`); the list
ends when `motor_running` is observed false. A HIGH poll increments
`current_rotation` (line 175) and then performs the dispatch; an exception
from the dispatch is not caught anywhere in `motor_sync`, so it kills the
thread. -/
def motor_sync_with (dispatch : Except PyError Unit) :
    ProcState → List Bool → MotorRun
  | s, [] => { final := s, ticks := 0, sends := 0, uncaught := none }
  | s, reading :: rest =>
    if s.motor_running then
      if reading then
        let s2 := { s with current_rotation := motorTick s.current_rotation }
        match dispatch with
        | Except.error e =>
          { final := s2, ticks := 1, sends := 0, uncaught := some e }
        | Except.ok _ =>
          let r := motor_sync_with dispatch s2 rest
          { final := r.final, ticks := r.ticks + 1, sends := r.sends + 1,
            uncaught := r.uncaught }
      else motor_sync_with dispatch s rest
    else { final := s, ticks := 0, sends := 0, uncaught := none }

/-- The `motor_sync` thread as shipped: its dispatch is
`send_next_frame_slice` (line 176). -/
def motor_sync : ProcState → List Bool → MotorRun :=
  motor_sync_with send_next_frame_slice

/-- Rotation index reached after `k` accepted ticks starting from the fresh
index 0, iterating the line-175 update. -/
def tracker_after : Nat → Nat
  | 0 => 0
  | k + 1 => motorTick (tracker_after k)

/-- Outcome of one fallible call into the Bluetooth library: normal return,
a raised `bluetooth.BluetoothError`, or any other raised `Exception`. These
are exactly the cases the two `except` clauses on lines 192-195 distinguish. -/
inductive CallRes where
  | ok
  | btErr
  | exnErr
deriving Repr, DecidableEq

/-- Observable behaviour of one `send_to_seeed_bluetooth` call: the exception
it lets escape to its caller (if any), whether the socket it opened was
closed, how many reconnect attempts it made after a failure, whether the
payload was delivered, and whether an error was logged. -/
structure SendTrace where
  propagated : Option PyError
  socketClosed : Bool
  reconnects : Nat
  delivered : Bool
  loggedError : Bool
deriving Repr, DecidableEq

/-- Embedding of `send_to_seeed_bluetooth` (lines 186-197), given the outcomes
of `sock.connect` (line 190) and `sock.send` (line 191). A new socket is
opened on every call (line 188); `except bluetooth.BluetoothError` and
`except Exception` (lines 192-195) catch any error from connect or send and
log it; `finally: sock.close()` (lines 196-197) closes the socket on every
path. No path retries, reconnects, counts failures, or re-raises. The
payload bytes do not influence control flow and are elided. -/
def send_to_seeed_bluetooth (connectRes sendRes : CallRes) : SendTrace :=
  match connectRes with
  | CallRes.ok =>
    match sendRes with
    | CallRes.ok =>
      { propagated := none, socketClosed := true, reconnects := 0,
        delivered := true, loggedError := false }
    | CallRes.btErr =>
      { propagated := none, socketClosed := true, reconnects := 0,
        delivered := false, loggedError := true }
    | CallRes.exnErr =>
      { propagated := none, socketClosed := true, reconnects := 0,
        delivered := false, loggedError := true }
  | CallRes.btErr =>
    { propagated := none, socketClosed := true, reconnects := 0,
      delivered := false, loggedError := true }
  | CallRes.exnErr =>
    { propagated := none, socketClosed := true, reconnects := 0,
      delivered := false, loggedError := true }

/-- A captured image: height, width, channel count, and the flat row-major
sample list (length `height * width * channels`). -/
structure Frame where
  height : Nat
  width : Nat
  channels : Nat
  pixels : List Nat

/-- Embedding of `capture_browser_window` (lines 144-149): grabs the fixed
640 x 480 monitor region; `mss` screenshots converted by `np.array` are
4-channel BGRA. The screen contents are the external input `screen`,
giving the sample at each flat index. -/
def capture_browser_window (screen : Nat → Nat) : Frame :=
  { height := 480, width := 640, channels := 4,
    pixels := (List.range (480 * 640 * 4)).map screen }

/-- Embedding of `cv2.resize(frame, (w, h))` as used on line 162: the output
shape is `h x w` with the channel count preserved. Sample values are modelled
by nearest-neighbour index mapping; the claims below depend only on the
output shape, which `cv2.resize` guarantees. -/
def cv2_resize (f : Frame) (w h : Nat) : Frame :=
  { height := h, width := w, channels := f.channels,
    pixels := (List.range (h * w * f.channels)).map fun i =>
      let c := f.channels
      let ch := i % c
      let x := (i / c) % w
      let y := i / (c * w)
      f.pixels.getD (((y * f.height / h) * f.width + (x * f.width / w)) * c + ch) 0 }

/-- Embedding of `process_frame_for_pov` (lines 160-163): resize the frame to
64 x 64 and return `tobytes()`, i.e. one flat byte string of the whole
resized frame. No slicing of any kind is performed. -/
def process_frame_for_pov (f : Frame) : List Nat :=
  (cv2_resize f 64 64).pixels

/-- One iteration's external inputs for the `capture_and_process_video` loop:
either the screen grab succeeds (with the screen contents and the outcomes of
the subsequent Bluetooth connect and send), or the capture backend is
unavailable and `mss` raises. -/
inductive CaptureStep where
  | frame (screen : Nat → Nat) (connectRes sendRes : CallRes)
  | unavailable

/-- Observable outcome of one run of the `capture_and_process_video` thread:
final global state, number of completed loop iterations, and the uncaught
exception that killed the thread, if any. -/
structure CaptureRun where
  final : ProcState
  iterations : Nat
  uncaught : Option PyError
deriving Repr, DecidableEq

/-- Embedding of `capture_and_process_video` (lines 151-158). Each list
element is one `while video_capture_running` iteration; list exhaustion
models the flag being cleared externally. The loop body has no `try`:
an exception from `capture_browser_window` propagates and kills the thread.
The result of `send_to_seeed_bluetooth` (Python `None`) is ignored, so send
outcomes cannot influence the loop. The loop never writes any global. -/
def capture_and_process_video : ProcState → List CaptureStep → CaptureRun
  | s, [] => { final := s, iterations := 0, uncaught := none }
  | s, step :: rest =>
    if s.video_capture_running then
      match step with
      | CaptureStep.unavailable =>
        { final := s, iterations := 0, uncaught := some PyError.screenGrabError }
      | CaptureStep.frame screen connectRes sendRes =>
        let _payload := process_frame_for_pov (capture_browser_window screen)
        let _tr := send_to_seeed_bluetooth connectRes sendRes
        let r := capture_and_process_video s rest
        { final := r.final, iterations := r.iterations + 1, uncaught := r.uncaught }
    else { final := s, iterations := 0, uncaught := none }

/-- What ended a call session: the exit phrase (line 126 `break`), an
exception inside the body (caught on line 129), or external cancellation
(`CancelledError` through the `await`, not caught by `except Exception`).
In all three cases the `finally` block on lines 131-140 runs. -/
inductive SessionEnd where
  | exitPhrase
  | internalError
  | externalCancel
deriving Repr, DecidableEq

/-- Effect on the globals of the session-start prologue of
`tavus_cvi_meeting` (lines 115 and 120): both run flags are set true (and the
two threads are started). `current_rotation` is not touched. -/
def session_start (s : ProcState) : ProcState :=
  { s with video_capture_running := true, motor_running := true }

/-- Effect on the globals of the `finally` block of `tavus_cvi_meeting`
(lines 131-136): both run flags are set false (and both threads are joined).
`current_rotation` is not touched. -/
def session_teardown (s : ProcState) : ProcState :=
  { s with video_capture_running := false, motor_running := false }

/-- Observable outcome of `tavus_cvi_meeting`: final global state and whether
each worker thread was joined before the function returned. -/
structure SessionResult where
  final : ProcState
  videoJoined : Bool
  motorJoined : Bool
deriving Repr, DecidableEq

/-- Embedding of `tavus_cvi_meeting` (lines 106-140) at the granularity of
its effect on the globals: the prologue sets both flags and starts the two
threads; however the body ends (`e`), the `finally` block clears both flags
and joins both threads (`video_thread.join()`, `motor_thread.join()`)
before the function returns. -/
def tavus_cvi_meeting (s : ProcState) (e : SessionEnd) : SessionResult :=
  let s1 := session_start s
  match e with
  | SessionEnd.exitPhrase =>
    { final := session_teardown s1, videoJoined := true, motorJoined := true }
  | SessionEnd.internalError =>
    { final := session_teardown s1, videoJoined := true, motorJoined := true }
  | SessionEnd.externalCancel =>
    { final := session_teardown s1, videoJoined := true, motorJoined := true }

/-- Embedding of `cleanup` (lines 201-208) on the globals: clears both run
flags (it also stops the camera and releases GPIO, outside this state).
`current_rotation` is not touched. -/
def cleanup (s : ProcState) : ProcState :=
  { s with video_capture_running := false, motor_running := false }

/-- Primitive operations a `send_to_seeed_bluetooth` call performs on the
shared Bluetooth medium, tagged by calling thread: open a socket and connect
(line 190), write the payload (line 191), close the socket (line 197). -/
inductive ChanAction where
  | connect (tid : Nat)
  | write (tid : Nat) (payload : List Nat)
  | close (tid : Nat)
deriving Repr, DecidableEq

/-- The channel actions of one `send_to_seeed_bluetooth(payload)` call from
thread `tid`, in program order. The function body contains no lock or queue
operation, so these are its only actions on the shared medium. -/
def sendCallActions (tid : Nat) (payload : List Nat) : List ChanAction :=
  [ChanAction.connect tid, ChanAction.write tid payload, ChanAction.close tid]

/-- Thread interleaving: `Interleaves xs ys zs` holds when `zs` is a merge of
`xs` and `ys` preserving each thread's program order. Because the source
contains no synchronization between the two calling threads, every
interleaving of their channel actions is schedulable. -/
inductive Interleaves : List ChanAction → List ChanAction → List ChanAction → Prop where
  | nil : Interleaves [] [] []
  | left : Interleaves xs ys zs → Interleaves (a :: xs) ys (a :: zs)
  | right : Interleaves xs ys zs → Interleaves xs (a :: ys) (a :: zs)

/-- Number of sockets open after one channel action, given the number open
before it. -/
def openCountStep (n : Nat) (a : ChanAction) : Nat :=
  match a with
  | ChanAction.connect _ => n + 1
  | ChanAction.close _ => n - 1
  | ChanAction.write _ _ => n

/-- Whether, at some point of the trace, at least two sockets are open at
once, starting from `n` already open. -/
def overlappedFrom : Nat → List ChanAction → Bool
  | _, [] => false
  | n, a :: rest =>
    let n2 := openCountStep n a
    if 2 ≤ n2 then true else overlappedFrom n2 rest

/-- Whether two send calls overlap somewhere in the trace: at some point two
sockets are simultaneously open on the medium. A channel serialized through a
single queue or lock never produces such a trace. -/
def overlapped (tr : List ChanAction) : Bool := overlappedFrom 0 tr

/-- The encoder output is one flat payload whose length is the resized pixel
count times the channel count, for every input frame. -/
theorem process_frame_length (f : Frame) :
    (process_frame_for_pov f).length = 64 * 64 * f.channels := by
  unfold process_frame_for_pov cv2_resize
  simp

/-- A run of the capture loop in which every screen grab succeeds, whatever
the Bluetooth outcomes, leaves the globals untouched and raises nothing. -/
theorem capture_loop_ignores_send_outcomes (st : ProcState)
    (outs : List (CallRes × CallRes)) :
    (capture_and_process_video st
        (outs.map fun p => CaptureStep.frame (fun _ => 0) p.1 p.2)).final = st ∧
    (capture_and_process_video st
        (outs.map fun p => CaptureStep.frame (fun _ => 0) p.1 p.2)).uncaught = none := by
  induction outs with
  | nil => exact ⟨rfl, rfl⟩
  | cons p rest ih =>
    by_cases hf : st.video_capture_running
    · simp only [List.map_cons, capture_and_process_video, hf, if_true]
      exact ⟨ih.1, ih.2⟩
    · simp only [List.map_cons, capture_and_process_video, hf, if_false]
      exact ⟨rfl, rfl⟩

/-- Claim C1: on every accepted rotation tick the dispatch logic is supposed
to look up the slice at the current angular index and hand exactly it to the
transmission channel, completing without an unhandled error. In the code the
very first accepted tick evaluates `get_frame_slice(current_rotation)`
(line 181), a name defined nowhere in the module: the dispatch path raises an
unhandled `NameError`, the motor thread dies, and zero send calls occur. -/
theorem C1_first_tick_unhandled_name_error :
    motor_sync (session_start initialState) [true] =
      { final := { video_capture_running := true, motor_running := true,
                   current_rotation := 1 },
        ticks := 1, sends := 0,
        uncaught := some (PyError.nameError "get_frame_slice") } := by
  decide

/-- Claim C2: the claim asserts that all writes into the transmission channel
are serialized through a single queue or lock, so bytes of two concurrent
payloads never interleave. `send_to_seeed_bluetooth` contains no lock or
queue, so every interleaving of the two calling threads' channel actions is
schedulable; here is one valid interleaving of a capture-loop call (thread 0)
and a dispatch-loop call (thread 1) in which both sockets are open at once
and the two writes are not separated by the calls' boundaries. -/
theorem C2_overlapping_schedule_reachable :
    Interleaves (sendCallActions 0 [1, 2]) (sendCallActions 1 [3, 4])
      [ChanAction.connect 0, ChanAction.connect 1,
       ChanAction.write 0 [1, 2], ChanAction.write 1 [3, 4],
       ChanAction.close 0, ChanAction.close 1] ∧
    overlapped
      [ChanAction.connect 0, ChanAction.connect 1,
       ChanAction.write 0 [1, 2], ChanAction.write 1 [3, 4],
       ChanAction.close 0, ChanAction.close 1] = true := by
  constructor
  · exact Interleaves.left (Interleaves.right (Interleaves.left
      (Interleaves.right (Interleaves.left (Interleaves.right Interleaves.nil)))))
  · decide

/-- Claim C3: the claim asserts `encode(F)` yields a SliceSet of exactly
`TOTAL_ROTATIONS = 10` equal-length slices. The code's encoder
`process_frame_for_pov` instead returns one flat byte string of the whole
64 x 64 resized frame — 16384 bytes for the configured 640 x 480 4-channel
capture — and no list of 10 slices exists anywhere (the slice accessor
`get_frame_slice` is undefined). -/
theorem C3_encode_is_flat_blob :
    (process_frame_for_pov (capture_browser_window fun _ => 0)).length = 16384 ∧
    (16384 : Nat) ≠ TOTAL_ROTATIONS := by
  constructor
  · rw [process_frame_length]
    rfl
  · decide

/-- Claim C4: from the fresh state (index 0) the angular index after `k`
accepted ticks equals `k mod TOTAL_ROTATIONS`, stays below
`TOTAL_ROTATIONS`, and advances by exactly one (mod `TOTAL_ROTATIONS`) per
accepted tick; one accepted tick of the `motor_sync` loop performs exactly
this update on `current_rotation`. -/
theorem C4_index_after_k_ticks (k : Nat) (v : Bool) :
    tracker_after k = k % TOTAL_ROTATIONS ∧
    tracker_after k < TOTAL_ROTATIONS ∧
    tracker_after (k + 1) = (tracker_after k + 1) % TOTAL_ROTATIONS ∧
    (motor_sync { video_capture_running := v, motor_running := true,
                  current_rotation := tracker_after k } [true]).final.current_rotation =
      tracker_after (k + 1) := by
  have h : ∀ n, tracker_after n = n % TOTAL_ROTATIONS := by
    intro n
    induction n with
    | zero => rfl
    | succ m ih =>
      show motorTick (tracker_after m) = (m + 1) % TOTAL_ROTATIONS
      rw [ih]
      show (m % TOTAL_ROTATIONS + 1) % TOTAL_ROTATIONS = (m + 1) % TOTAL_ROTATIONS
      unfold TOTAL_ROTATIONS
      omega
  refine ⟨h k, ?_, rfl, rfl⟩
  rw [h k]
  exact Nat.mod_lt _ (by decide)

/-- Claim C5: the claim asserts debounced tick counting: two edges closer
than the window count once, two edges farther apart count twice, and a
sustained high signal counts once. The code has no debounce state at all.
On the poll trace HIGH, LOW, LOW, HIGH (two edges three polls apart, farther
than any window) the shipped loop counts one tick, because the dispatch
crash (claim C1) kills the thread at the first tick; and the loop structure
itself, run with a non-raising dispatch, counts a tick on every HIGH poll,
so two HIGH polls one millisecond apart count twice. -/
theorem C5_no_debounce :
    (motor_sync (session_start initialState) [true, false, false, true]).ticks = 1 ∧
    (motor_sync (session_start initialState) [true, false, false, true]).uncaught =
      some (PyError.nameError "get_frame_slice") ∧
    (motor_sync_with (Except.ok ()) (session_start initialState) [true, true]).ticks = 2 := by
  decide

/-- Claim C6 counterexample: the claim asserts a failed send triggers a
single bounded reconnect, propagates a fatal error, and that six consecutive
send errors abort the session. In the code a send error triggers zero
reconnects and propagates nothing, and after six consecutive send errors the
capture loop has completed all six iterations with the session still flagged
running and nothing raised. -/
theorem C6_counterexample_failures_not_escalated :
    (send_to_seeed_bluetooth CallRes.ok CallRes.btErr).reconnects = 0 ∧
    (send_to_seeed_bluetooth CallRes.ok CallRes.btErr).propagated = none ∧
    (capture_and_process_video (session_start initialState)
        (List.replicate 6 (CaptureStep.frame (fun _ => 0) CallRes.ok CallRes.btErr))).iterations = 6 ∧
    (capture_and_process_video (session_start initialState)
        (List.replicate 6 (CaptureStep.frame (fun _ => 0) CallRes.ok CallRes.btErr))).final.video_capture_running = true ∧
    (capture_and_process_video (session_start initialState)
        (List.replicate 6 (CaptureStep.frame (fun _ => 0) CallRes.ok CallRes.btErr))).uncaught = none := by
  exact ⟨rfl, rfl, rfl, rfl, rfl⟩

/-- Claim C6 as amended: every Bluetooth failure while connecting or sending
is caught and logged inside `send_to_seeed_bluetooth`, which closes its
socket, attempts no reconnect, and returns normally; the capture loop ignores
send outcomes entirely, so any number of consecutive send failures leaves the
session state untouched and raises nothing — failures are logged and dropped
indefinitely, with no count and no abort. -/
theorem C6_amended_send_errors_logged_and_dropped (c s : CallRes)
    (st : ProcState) (outs : List (CallRes × CallRes)) :
    (send_to_seeed_bluetooth c s).propagated = none ∧
    (send_to_seeed_bluetooth c s).reconnects = 0 ∧
    (send_to_seeed_bluetooth c s).socketClosed = true ∧
    (c = CallRes.ok ∧ s = CallRes.ok ∨ (send_to_seeed_bluetooth c s).loggedError = true) ∧
    (capture_and_process_video st
        (outs.map fun p => CaptureStep.frame (fun _ => 0) p.1 p.2)).final = st ∧
    (capture_and_process_video st
        (outs.map fun p => CaptureStep.frame (fun _ => 0) p.1 p.2)).uncaught = none := by
  refine ⟨?_, ?_, ?_, ?_, (capture_loop_ignores_send_outcomes st outs).1,
    (capture_loop_ignores_send_outcomes st outs).2⟩
  · cases c <;> cases s <;> rfl
  · cases c <;> cases s <;> rfl
  · cases c <;> cases s <;> rfl
  · cases c <;> cases s <;> simp [send_to_seeed_bluetooth]

/-- Claim C7 counterexample: the claim asserts that an unavailable capture
backend leads to bounded retries, then a session abort with the channel
closed. In the code a capture failure at call 1 kills the capture thread
immediately with an uncaught exception: zero iterations complete, no retry
occurs, and the session is still flagged running afterwards. -/
theorem C7_counterexample_capture_outage :
    (capture_and_process_video (session_start initialState)
        (CaptureStep.unavailable :: List.replicate 5
          (CaptureStep.frame (fun _ => 0) CallRes.ok CallRes.ok))).iterations = 0 ∧
    (capture_and_process_video (session_start initialState)
        (CaptureStep.unavailable :: List.replicate 5
          (CaptureStep.frame (fun _ => 0) CallRes.ok CallRes.ok))).uncaught =
      some PyError.screenGrabError ∧
    (capture_and_process_video (session_start initialState)
        (CaptureStep.unavailable :: List.replicate 5
          (CaptureStep.frame (fun _ => 0) CallRes.ok CallRes.ok))).final.video_capture_running = true := by
  exact ⟨rfl, rfl, rfl⟩

/-- Claim C7 as amended: when the capture backend is unavailable, the
exception from the screen grab propagates out of the untried loop body and
kills the capture thread on the first failing call — no retry happens, no
global is changed, and the session keeps running. -/
theorem C7_amended_capture_failure_kills_thread (st : ProcState)
    (rest : List CaptureStep) :
    capture_and_process_video (session_start st) (CaptureStep.unavailable :: rest) =
      { final := session_start st, iterations := 0,
        uncaught := some PyError.screenGrabError } := by
  rfl

/-- Claim C8: whichever of the three causes ends the session — exit phrase,
internal error, external cancellation — the `finally` block of
`tavus_cvi_meeting` clears both run flags and joins both worker threads
before the function returns, so no state is left claiming an active
session. -/
theorem C8_teardown_unconditional (st : ProcState) (e : SessionEnd) :
    (tavus_cvi_meeting st e).final.video_capture_running = false ∧
    (tavus_cvi_meeting st e).final.motor_running = false ∧
    (tavus_cvi_meeting st e).videoJoined = true ∧
    (tavus_cvi_meeting st e).motorJoined = true := by
  cases e <;> exact ⟨rfl, rfl, rfl, rfl⟩

/-- Claim C9: for every outcome of the connect and send calls,
`send_to_seeed_bluetooth` propagates no exception to its caller and the
socket it opened is closed. -/
theorem C9_send_never_raises (connectRes sendRes : CallRes) :
    (send_to_seeed_bluetooth connectRes sendRes).propagated = none ∧
    (send_to_seeed_bluetooth connectRes sendRes).socketClosed = true := by
  cases connectRes <;> cases sendRes <;> exact ⟨rfl, rfl⟩

/-- Claim C10: neither session start, session teardown, nor `cleanup` writes
`current_rotation`; the first accepted tick of a new session therefore
advances from the previous session's final index, landing at
`(previous + 1) mod TOTAL_ROTATIONS`, which lies in `0..TOTAL_ROTATIONS-1`. -/
theorem C10_rotation_survives_sessions (st : ProcState) (e : SessionEnd)
    (rest : List Bool) :
    (session_start st).current_rotation = st.current_rotation ∧
    (tavus_cvi_meeting st e).final.current_rotation = st.current_rotation ∧
    (cleanup st).current_rotation = st.current_rotation ∧
    (motor_sync (session_start st) (true :: rest)).final.current_rotation =
      (st.current_rotation + 1) % TOTAL_ROTATIONS ∧
    (st.current_rotation + 1) % TOTAL_ROTATIONS < TOTAL_ROTATIONS := by
  refine ⟨rfl, ?_, rfl, rfl, Nat.mod_lt _ (by decide)⟩
  cases e <;> rfl

end Skye
